import Mathlib

/-!
Verification of the `dashboard_projet` Odoo module (models/dashboard.py and
controllers/dashboard_controller.py).

The record families the module queries (`account.move`, `account.move.line`,
`account.analytic.line`, `project.project`, `account.account`) are embedded as
lists of records inside an `Env` snapshot; a family whose model is absent from
the deployment is `none` (mirroring `_model_exists`). Optional-field probing
(`_field_exists` / `hasattr`) is embedded as boolean capability flags on `Env`.
Monetary amounts (Python floats) are rationals; Odoo dates used in domain
filters are abstract ordered day values (`Int`); a field that can be unset
(`False` in Odoo) is an `Option`. Code that can raise is embedded with
`Except`, and the module's `try/except` blocks become explicit matches on the
`Except` value.
-/

namespace DashboardProjet

/-- A record of `account.move` with the fields `get_chiffre_affaires` reads. -/
structure Invoice where
  state : String
  move_type : String
  invoice_date : Option Int
  amount_total_signed : ℚ
deriving DecidableEq

/-- A record of `account.move.line` with the fields the module reads
(invoice header fields are denormalised onto the line, standing for
`move_id.state`, `move_id.move_type`, `move_id.invoice_date`).
`analytic_distribution` is the JSON dict mapping analytic-account-id keys to
percentage values; values are kept integral, as Python renders them
(`100.0`). -/
structure MoveLine where
  move_state : String
  move_type : String
  invoice_date : Option Int
  date : Option Int
  price_subtotal : ℚ
  analytic_distribution : Option (List (String × Int))
  analytic_account_id : Option Nat
  account_id : Option Nat
  debit : ℚ
  credit : ℚ
deriving DecidableEq

/-- A record of `account.analytic.line` (timesheet-like cost entry). -/
structure AnalyticLine where
  project_id : Option Nat
  date : Option Int
  amount : Option ℚ
  employee_id : Option Nat
  unit_amount : ℚ
deriving DecidableEq

/-- A record of `project.project` with the fields the module reads.
`date_end` stands for the source's `date` field. -/
structure Projet where
  id : Nat
  name : Option String
  analytic_account_id : Option Nat
  active : Bool
  date_start : Option Int
  date_end : Option Int
  last_update_status : Option String
deriving DecidableEq

/-- A record of `account.account`. -/
structure Account where
  id : Nat
  code : String
  name : String
deriving DecidableEq

/-- A snapshot of the record store plus the capability flags the module probes
with `_model_exists` / `_field_exists` / `hasattr`. A `none` family means the
model is absent from the deployment. -/
structure Env where
  account_move : Option (List Invoice)
  account_move_line : Option (List MoveLine)
  analytic_lines : Option (List AnalyticLine)
  projects : Option (List Projet)
  accounts : Option (List Account)
  has_analytic_distribution : Bool
  has_analytic_account : Bool
  has_active : Bool
  has_date_start : Bool
  has_date_field : Bool
  has_last_update_status : Bool
deriving DecidableEq

/-- Odoo domain condition `('field', '>=', b)`: an unset (`False`) date never
matches; no bound means the condition was not appended to the domain. -/
def domGe (bound : Option Int) (d : Option Int) : Bool :=
  match bound with
  | none => true
  | some b =>
    match d with
    | none => false
    | some x => decide (b ≤ x)

/-- Odoo domain condition `('field', '<=', b)`. -/
def domLe (bound : Option Int) (d : Option Int) : Bool :=
  match bound with
  | none => true
  | some b =>
    match d with
    | none => false
    | some x => decide (x ≤ b)

/-- The search domain of `get_chiffre_affaires`: posted customer invoices,
with the date conditions appended only when a bound is present. -/
def invQual (db df : Option Int) (f : Invoice) : Bool :=
  f.state == "posted" && f.move_type == "out_invoice" &&
    domGe db f.invoice_date && domLe df f.invoice_date

/-- `get_chiffre_affaires` (models/dashboard.py:17-62): portfolio revenue.
Searches posted customer invoices in the date range and sums the truthy,
strictly positive `amount_total_signed` values, then `max(total_ca, ...)`
with `total_ca = 0`. Returns 0 when `account.move` is absent. -/
def get_chiffre_affaires (env : Env) (db df : Option Int) : ℚ :=
  match env.account_move with
  | none => 0
  | some moves =>
    let factures := moves.filter (invQual db df)
    let ca_factures :=
      ((factures.filter (fun f =>
        !(decide (f.amount_total_signed = 0)) &&
          decide (0 < f.amount_total_signed))).map
        (fun f => f.amount_total_signed)).sum
    max 0 ca_factures

/-- `as` is a prefix of `bs` (character lists). -/
def pfx : List Char → List Char → Bool
  | [], _ => true
  | _ :: _, [] => false
  | a :: as, b :: bs => a == b && pfx as bs

/-- `as` occurs contiguously inside `bs` (character lists). -/
def infx (as : List Char) : List Char → Bool
  | [] => as.isEmpty
  | b :: bs => pfx as (b :: bs) || infx as bs

/-- Python's `needle in hay` on strings: substring containment. -/
def containsSubstr (needle hay : String) : Bool :=
  infx needle.toList hay.toList

/-- Python's `str(...)` of the `analytic_distribution` JSON dict, e.g.
`str({'12': 100.0})` is `{'12': 100.0}` (integral floats render with `.0`). -/
def pyDictStr (dist : List (String × Int)) : String :=
  "\x7b" ++
    String.intercalate ", "
      (dist.map (fun kv => "'" ++ kv.1 ++ "': " ++ toString kv.2 ++ ".0")) ++
  "\x7d"

/-- The `filtered(lambda l: l.move_id.invoice_date >= date_debut)` step of
`_get_ca_projet_optimized`: comparing an unset (`False`) invoice date with a
date raises `TypeError` in Python, which the function's `except` turns into a
0 result — embedded as `Except`. -/
def filteredGe (b : Int) (ls : List MoveLine) : Except Unit (List MoveLine) :=
  if ls.any (fun l => l.invoice_date.isNone) then .error ()
  else .ok (ls.filter (fun l => decide (b ≤ l.invoice_date.getD 0)))

/-- The `filtered(lambda l: l.move_id.invoice_date <= date_fin)` step. -/
def filteredLe (b : Int) (ls : List MoveLine) : Except Unit (List MoveLine) :=
  if ls.any (fun l => l.invoice_date.isNone) then .error ()
  else .ok (ls.filter (fun l => decide (l.invoice_date.getD 0 ≤ b)))

/-- The body of `_get_ca_projet_optimized` (models/dashboard.py:123-210)
before its enclosing `try/except`. Branch 1 (Odoo 16+, `analytic_distribution`
field present): searches posted customer-invoice lines with a truthy
distribution, filters by the invoice date, then adds `price_subtotal` for
every line satisfying
`str(projet.analytic_account_id.id) in str(ligne.analytic_distribution)` —
a substring test on the dict's string form. Branch 2 (fallback,
`analytic_account_id` field on lines): plain equality domain search. -/
def ca_projet_body (env : Env) (projet : Projet) (db df : Option Int) :
    Except Unit ℚ :=
  match env.account_move_line, projet.analytic_account_id with
  | some lines, some acc =>
    if env.has_analytic_distribution then do
      let base := lines.filter (fun l =>
        l.move_state == "posted" && l.move_type == "out_invoice" &&
          l.analytic_distribution.isSome)
      let s1 ← match db with
        | none => Except.ok base
        | some b => filteredGe b base
      let s2 ← match df with
        | none => Except.ok s1
        | some b => filteredLe b s1
      Except.ok (s2.foldl (fun ca l =>
        match l.analytic_distribution with
        | some dist =>
          if containsSubstr (toString acc) (pyDictStr dist) then
            ca + l.price_subtotal
          else ca
        | none => ca) 0)
    else if env.has_analytic_account then
      let lignes := lines.filter (fun l =>
        l.move_state == "posted" && l.move_type == "out_invoice" &&
          l.analytic_account_id == some acc &&
          domGe db l.invoice_date && domLe df l.invoice_date)
      Except.ok (((lignes.filter (fun l =>
        !(decide (l.price_subtotal = 0)))).map
          (fun l => l.price_subtotal)).sum)
    else Except.ok 0
  | _, _ => Except.ok 0

/-- `_get_ca_projet_optimized`: the body wrapped in its `try/except`
(an exception yields 0). -/
def get_ca_projet_optimized (env : Env) (projet : Projet) (db df : Option Int) :
    ℚ :=
  match ca_projet_body env projet db df with
  | .ok v => v
  | .error _ => 0

/-- The timesheet search domain shared by `_get_cout_salarial_projet` and
`_get_heures_projet`: entries of the project, date conditions appended only
when a bound is present. -/
def tsQual (projet : Projet) (db df : Option Int) (t : AnalyticLine) : Bool :=
  t.project_id == some projet.id && domGe db t.date && domLe df t.date

/-- The per-entry cost of `_get_cout_salarial_projet`'s loop: the absolute
value of a present, strictly negative `amount`; 0 otherwise. -/
def negCost (t : AnalyticLine) : ℚ :=
  match t.amount with
  | some a => if a < 0 then |a| else 0
  | none => 0

/-- `_get_cout_salarial_projet` (models/dashboard.py:329-398): sums `negCost`
over the project's timesheet entries in the range; 0 when
`account.analytic.line` is absent. -/
def get_cout_salarial_projet (env : Env) (projet : Projet)
    (db df : Option Int) : ℚ :=
  match env.analytic_lines with
  | none => 0
  | some tss =>
    (tss.filter (tsQual projet db df)).foldl
      (fun cout_total t => cout_total + negCost t) 0

/-- `_get_nb_personnes_projet` (models/dashboard.py:212-231):
`len(set(...))` over the employee ids of the project's entries having an
employee, with no date condition in the domain. -/
def get_nb_personnes_projet (env : Env) (projet : Projet) : Nat :=
  match env.analytic_lines with
  | none => 0
  | some tss =>
    (((tss.filter (fun t =>
      t.project_id == some projet.id && t.employee_id.isSome)).filterMap
        (fun t => t.employee_id)).dedup).length

/-- `_get_heures_projet` (models/dashboard.py:237-255): sums the truthy
`unit_amount` values over the project's entries in the range. -/
def get_heures_projet (env : Env) (projet : Projet) (db df : Option Int) : ℚ :=
  match env.analytic_lines with
  | none => 0
  | some tss =>
    (((tss.filter (tsQual projet db df)).filter (fun t =>
      !(decide (t.unit_amount = 0)))).map (fun t => t.unit_amount)).sum

/-- The `last_update_status_mapping.get(status, str(status))` lookup of
`_get_stage_projet`. -/
def lusMapping (s : String) : String :=
  if s == "on_track" then "En bonne voie"
  else if s == "at_risk" then "En danger"
  else if s == "off_track" then "En retard"
  else if s == "on_hold" then "En attente"
  else if s == "done" then "Fait"
  else if s == "to_define" then "À définir"
  else s

/-- `_get_stage_projet` (models/dashboard.py:257-288): maps
`last_update_status` when the field exists (an unset value falls through the
dict lookup to Python's `str(False)`), else `'Actif'`. -/
def get_stage_projet (env : Env) (projet : Projet) : String :=
  if env.has_last_update_status then
    match projet.last_update_status with
    | some s => lusMapping s
    | none => "False"
  else "Actif"

/-- Floor of a rational as an integer (`q.num` floor-divided by `q.den`). -/
def ratFloor (q : ℚ) : ℤ :=
  Int.fdiv q.num (q.den : ℤ)

/-- Python's `round` to an integer: round half to even. -/
def pyRoundInt (q : ℚ) : ℤ :=
  let f := ratFloor q
  let r := q - (f : ℚ)
  if r < 1/2 then f
  else if 1/2 < r then f + 1
  else if f % 2 = 0 then f else f + 1

/-- Python's `round(x, 2)`. -/
def round2 (q : ℚ) : ℚ :=
  (pyRoundInt (q * 100) : ℚ) / 100

/-- The margin dict built by `get_marge_salariale_projet`
(keys `revenus`, `cout_salarial`, `marge`, `taux_marge`). -/
structure Marge where
  revenus : ℚ
  cout_salarial : ℚ
  marge : ℚ
  taux_marge : ℚ
deriving DecidableEq

/-- `_get_empty_marge` (models/dashboard.py:632-639). -/
def get_empty_marge : Marge :=
  ⟨0, 0, 0, 0⟩

/-- The margin formula of `get_marge_salariale_projet` (lines 311-320):
`marge = revenus - cout_salarial`,
`taux_marge = marge / revenus * 100 if revenus > 0 else 0`, rounded to 2
decimal places. -/
def computeMarge (revenus cout_salarial : ℚ) : Marge :=
  let marge := revenus - cout_salarial
  let taux_marge := if 0 < revenus then marge / revenus * 100 else 0
  ⟨revenus, cout_salarial, marge, round2 taux_marge⟩

/-- `get_marge_salariale_projet` (models/dashboard.py:290-327): falsy
`projet_id` (absent or 0) or a `projet_id` that `browse(...).exists()` does
not resolve gives the empty margin (a missing `project.project` model raises
and is likewise caught to the empty margin); otherwise delegates to the
per-project revenue and staffing-cost computations and the margin formula. -/
def get_marge_salariale_projet (env : Env) (projet_id : Option Nat)
    (db df : Option Int) : Marge :=
  match projet_id with
  | none => get_empty_marge
  | some pid =>
    if pid = 0 then get_empty_marge
    else
      match (env.projects.getD []).find? (fun p => p.id == pid) with
      | none => get_empty_marge
      | some projet =>
        let revenus := get_ca_projet_optimized env projet db df
        let cout_salarial := get_cout_salarial_projet env projet db df
        computeMarge revenus cout_salarial

/-- The `project.project` search of `get_projets_data` (lines 72-86):
`active` and the two date conditions are appended only when the field exists
(and, for dates, a bound is present); `limit=500`. -/
def searchProjets (env : Env) (db df : Option Int) : List Projet :=
  match env.projects with
  | none => []
  | some ps =>
    let ps1 := if env.has_active then ps.filter (fun p => p.active) else ps
    let ps2 :=
      match db with
      | none => ps1
      | some b =>
        if env.has_date_start then
          ps1.filter (fun p => domGe (some b) p.date_start)
        else ps1
    let ps3 :=
      match df with
      | none => ps2
      | some b =>
        if env.has_date_field then
          ps2.filter (fun p => domLe (some b) p.date_end)
        else ps2
    ps3.take 500

/-- One element of the list returned by `get_projets_data`: a dict with
exactly the keys `id`, `name`, `ca`, `nb_personnes`, `heures`, `stage`,
`marge_data`. -/
structure ProjetInfo where
  id : Nat
  name : String
  ca : ℚ
  nb_personnes : Nat
  heures : ℚ
  stage : String
  marge_data : Option Marge
deriving DecidableEq

/-- `projet.name or f'Projet {projet.id}'`. -/
def projetName (p : Projet) : String :=
  match p.name with
  | some s => if s = "" then "Projet " ++ toString p.id else s
  | none => "Projet " ++ toString p.id

/-- The per-project loop body of `get_projets_data` (lines 91-115): the
metrics computation sits inside a `try`; if it raises, the project still gets
the default entry (`ca` 0, `nb_personnes` 0, `heures` 0, stage `'Erreur'`,
`marge_data` None). The computation is passed in explicitly so that an
injected failure can be reasoned about. -/
def projetEntry (compute : Projet → Except String (ℚ × Nat × ℚ × String))
    (p : Projet) : ProjetInfo :=
  match compute p with
  | .ok (ca, nb, h, st) => ⟨p.id, projetName p, ca, nb, h, st, none⟩
  | .error _ => ⟨p.id, projetName p, 0, 0, 0, "Erreur", none⟩

/-- `get_projets_data` with an explicit per-project metrics computation. -/
def get_projets_data_with (env : Env) (db df : Option Int)
    (compute : Projet → Except String (ℚ × Nat × ℚ × String)) :
    List ProjetInfo :=
  (searchProjets env db df).map (projetEntry compute)

/-- The actual metrics computation of the loop body (lines 93-101), which
never raises since each helper catches internally. -/
def defaultCompute (env : Env) (db df : Option Int) (p : Projet) :
    Except String (ℚ × Nat × ℚ × String) :=
  .ok (get_ca_projet_optimized env p db df,
       get_nb_personnes_projet env p,
       get_heures_projet env p db df,
       get_stage_projet env p)

/-- `get_projets_data` (models/dashboard.py:64-121). -/
def get_projets_data (env : Env) (db df : Option Int) : List ProjetInfo :=
  get_projets_data_with env db df (defaultCompute env db df)

/-- Odoo `ilike` against a lowercase pattern: case-insensitive containment. -/
def ilike (pat s : String) : Bool :=
  containsSubstr pat s.toLower

/-- The `account.account` search of `_get_cout_administratif` (lines
516-524): expense-code prefix `6` or an administrative name heuristic. -/
def adminAccount (a : Account) : Bool :=
  a.code.startsWith "6" || ilike "admin" a.name ||
    ilike "frais généraux" a.name || ilike "direction" a.name ||
    ilike "management" a.name

/-- `_get_cout_administratif` (models/dashboard.py:459-554): over posted
ledger lines of the administrative accounts within the range, sums
`abs(debit - credit)`; 0 when `account.move.line` or `account.account` is
absent or no administrative account matches. -/
def get_cout_administratif (env : Env) (db df : Option Int) : ℚ :=
  match env.account_move_line with
  | none => 0
  | some lines =>
    match env.accounts with
    | none => 0
    | some accs =>
      let comptes_admin := accs.filter adminAccount
      if comptes_admin.isEmpty then 0
      else
        let lignes_charges := lines.filter (fun l =>
          (match l.account_id with
           | some i => comptes_admin.any (fun a => a.id == i)
           | none => false) &&
          l.move_state == "posted" &&
          domGe db l.date && domLe df l.date)
        ((lignes_charges.map (fun l => |l.debit - l.credit|)).sum)

/-- The dict built by `get_marge_administrative` (keys `ca_total`,
`cout_admin`, `marge_admin`, `taux_marge_admin`). -/
structure MargeAdmin where
  ca_total : ℚ
  cout_admin : ℚ
  marge_admin : ℚ
  taux_marge_admin : ℚ
deriving DecidableEq

/-- The all-zero administrative margin (the default of both
`get_marge_administrative`'s `except` and `get_dashboard_data`'s result). -/
def emptyMargeAdmin : MargeAdmin :=
  ⟨0, 0, 0, 0⟩

/-- `get_marge_administrative` (models/dashboard.py:426-457). -/
def get_marge_administrative (env : Env) (db df : Option Int) : MargeAdmin :=
  let ca_total := get_chiffre_affaires env db df
  let cout_admin := get_cout_administratif env db df
  let marge_admin := ca_total - cout_admin
  let taux := if 0 < ca_total then marge_admin / ca_total * 100 else 0
  ⟨ca_total, cout_admin, marge_admin, round2 taux⟩

/-- The result dict of `get_dashboard_data` (keys `chiffre_affaires`,
`projets`, `marge_administrative`). -/
structure DashboardData where
  chiffre_affaires : ℚ
  projets : List ProjetInfo
  marge_administrative : MargeAdmin
deriving DecidableEq

/-- `get_dashboard_data` (models/dashboard.py:556-602) with each of its three
section computations passed as an `Except` value standing for the guarded
call: the result starts from the zero/empty defaults and each section's
`try` block overwrites its own field only when its computation succeeds. -/
def get_dashboard_data_with (fCA : Except String ℚ)
    (fProjets : Except String (List ProjetInfo))
    (fMarge : Except String MargeAdmin) : DashboardData :=
  let r0 : DashboardData := ⟨0, [], emptyMargeAdmin⟩
  let r1 := match fCA with
    | .ok v => { r0 with chiffre_affaires := v }
    | .error _ => r0
  let r2 := match fProjets with
    | .ok v => { r1 with projets := v }
    | .error _ => r1
  let r3 := match fMarge with
    | .ok v => { r2 with marge_administrative := v }
    | .error _ => r2
  r3

/-- `get_dashboard_data` on an actual snapshot: the three section
computations as embedded never raise, so each guarded call succeeds. -/
def get_dashboard_data (env : Env) (db df : Option Int) : DashboardData :=
  get_dashboard_data_with
    (.ok (get_chiffre_affaires env db df))
    (.ok (get_projets_data env db df))
    (.ok (get_marge_administrative env db df))

/-- A calendar date as `datetime.strptime(s, '%Y-%m-%d').date()` produces. -/
structure PyDate where
  y : Nat
  m : Nat
  d : Nat
deriving DecidableEq

/-- Gregorian leap year. -/
def isLeap (y : Nat) : Bool :=
  y % 4 == 0 && (y % 100 != 0 || y % 400 == 0)

/-- Days in a month. -/
def daysInMonth (y m : Nat) : Nat :=
  if m == 2 then (if isLeap y then 29 else 28)
  else if m == 4 || m == 6 || m == 9 || m == 11 then 30
  else 31

/-- Split a character list on `'-'` (Python's `s.split('-')` behaviour:
always at least one group, empty groups kept). -/
def splitDash : List Char → List (List Char)
  | [] => [[]]
  | c :: cs =>
    if c == '-' then [] :: splitDash cs
    else
      match splitDash cs with
      | [] => [[c]]
      | g :: gs => (c :: g) :: gs

/-- Non-empty all-digit character group. -/
def allDigits (cs : List Char) : Bool :=
  !cs.isEmpty && cs.all Char.isDigit

/-- Decimal value of a digit group. -/
def natOfDigits (cs : List Char) : Nat :=
  cs.foldl (fun n c => n * 10 + (c.toNat - 48)) 0

/-- `datetime.strptime(s, '%Y-%m-%d')` (the parse underlying both
`fields.Date.from_string` and the controller's `_validate_date`): three
dash-separated digit groups (year up to 4 digits, month/day up to 2), a valid
calendar date within `datetime`'s year range; anything else raises
`ValueError`, embedded as `Except.error`. -/
def strptimeDate (s : String) : Except Unit PyDate :=
  match splitDash s.toList with
  | [ys, ms, ds] =>
    if allDigits ys && allDigits ms && allDigits ds &&
        ys.length ≤ 4 && ms.length ≤ 2 && ds.length ≤ 2 then
      let y := natOfDigits ys
      let m := natOfDigits ms
      let d := natOfDigits ds
      if 1 ≤ y && 1 ≤ m && m ≤ 12 && 1 ≤ d && d ≤ daysInMonth y m then
        .ok ⟨y, m, d⟩
      else .error ()
    else .error ()
  | _ => .error ()

/-- The input of the model's `_parse_date`: absent/`False`, a string, or an
already-parsed date object. -/
inductive DateInput where
  | noneV : DateInput
  | strV : String → DateInput
  | dateV : PyDate → DateInput
deriving DecidableEq

/-- `_parse_date` (models/dashboard.py:620-630): falsy input (absent or the
empty string) gives `None`; a string is parsed, with a parse failure caught
to `None`; a date object passes through. -/
def parse_date : DateInput → Option PyDate
  | .noneV => none
  | .strV s =>
    if s = "" then none
    else
      match strptimeDate s with
      | .ok d => some d
      | .error _ => none
  | .dateV d => some d

/-- `_validate_date` (controllers/dashboard_controller.py:786-795): falsy
input gives `None`; otherwise the string is checked with
`strptime(_, '%Y-%m-%d')` and returned unchanged on success, with
`ValueError` caught to `None`. -/
def validate_date : Option String → Option String
  | none => none
  | some s =>
    if s = "" then none
    else
      match strptimeDate s with
      | .ok _ => some s
      | .error _ => none

/-- Modelled from the spec: the model method `get_budget_comparison` that the
controller's `/dashboard_projet/budget_data` route invokes is absent from the
source tree (only its caller exists), so its per-project figures follow the
spec's Budget Comparator: `utilizationPct = realizedRevenue / plannedBudget ×
100` when `plannedBudget > 0`, else 0; `remaining = max(0, plannedBudget −
realizedRevenue)`. The pair is (utilizationPct, remaining). -/
def budgetProjetFigures (plannedBudget realizedRevenue : ℚ) : ℚ × ℚ :=
  (if 0 < plannedBudget then realizedRevenue / plannedBudget * 100 else 0,
   max 0 (plannedBudget - realizedRevenue))

/-- The project of the C5 failing input: its analytic account has id 1. -/
def projC5 : Projet :=
  ⟨1, some "P", some 1, true, none, none, none⟩

/-- The invoice line of the C5 failing input: posted, customer-type, subtotal
100, attributed 100% to analytic account 12 — an account distinct from the
project's. -/
def ligneC5 : MoveLine :=
  ⟨"posted", "out_invoice", some 10, none, 100, some [("12", 100)],
    none, none, 0, 0⟩

/-- The snapshot of the C5 failing input (deployment with the
`analytic_distribution` field). -/
def envC5 : Env :=
  ⟨none, some [ligneC5], none, none, none,
    true, false, false, false, false, false⟩

/-! ## Helper lemmas -/

/-- A left fold that accumulates `f` equals the initial value plus the sum of
the mapped list. -/
theorem foldl_add_eq_sum {α : Type} (f : α → ℚ) (l : List α) (init : ℚ) :
    l.foldl (fun acc t => acc + f t) init = init + (l.map f).sum := by
  induction l generalizing init with
  | nil => simp
  | cons a t ih =>
    simp only [List.foldl_cons, List.map_cons, List.sum_cons, ih]
    ring

/-- Filtering out elements on which `f` vanishes does not change the sum. -/
theorem sum_map_filter_of_zero {α : Type} (p : α → Bool) (f : α → ℚ)
    (h : ∀ a, p a = false → f a = 0) (l : List α) :
    ((l.filter p).map f).sum = (l.map f).sum := by
  induction l with
  | nil => rfl
  | cons a t ih =>
    by_cases hp : p a
    · simp [List.filter_cons, hp, ih]
    · have hfalse : p a = false := by simpa using hp
      simp [List.filter_cons, hfalse, ih, h a hfalse]

/-- Python's truthiness conjunct `x and x > 0` collapses to `0 < x`. -/
theorem truthy_pos (x : ℚ) :
    (!(decide (x = 0)) && decide (0 < x)) = decide (0 < x) := by
  by_cases h : 0 < x
  · simp [h, ne_of_gt h, Ne.symm (ne_of_gt h)]
  · simp [h]

/-- `pyRoundInt 0 = 0`. -/
theorem pyRoundInt_zero : pyRoundInt 0 = 0 := by
  have h0 : ratFloor 0 = 0 := by simp [ratFloor]
  simp only [pyRoundInt, h0]
  norm_num

/-- `round2 0 = 0`. -/
theorem round2_zero : round2 0 = 0 := by
  have h : (0 : ℚ) * 100 = 0 := by norm_num
  rw [round2, h, pyRoundInt_zero]
  norm_num

/-- The field-level description of `computeMarge`. -/
theorem computeMarge_fields (r c : ℚ) :
    (computeMarge r c).revenus = r ∧
    (computeMarge r c).cout_salarial = c ∧
    (computeMarge r c).marge = r - c ∧
    (computeMarge r c).taux_marge =
      round2 (if 0 < r then (r - c) / r * 100 else 0) :=
  ⟨rfl, rfl, rfl, rfl⟩

/-! ## Claim theorems -/

/-- C1: `get_dashboard_data` computes its three sections (portfolio revenue,
per-project list, administrative margin) in separate guarded scopes over a
result pre-filled with zero/empty defaults: a section whose computation
throws keeps its default (`chiffre_affaires` 0, `projets` `[]`, the all-zero
`marge_administrative`) while every other section keeps its computed value,
and the call always returns a fully-shaped result; on a real snapshot the
three guarded computations all succeed. -/
theorem dashboard_fault_isolation (fCA : Except String ℚ)
    (fProjets : Except String (List ProjetInfo))
    (fMarge : Except String MargeAdmin) :
    ((get_dashboard_data_with fCA fProjets fMarge).chiffre_affaires =
      match fCA with | .ok v => v | .error _ => 0) ∧
    ((get_dashboard_data_with fCA fProjets fMarge).projets =
      match fProjets with | .ok v => v | .error _ => []) ∧
    ((get_dashboard_data_with fCA fProjets fMarge).marge_administrative =
      match fMarge with | .ok v => v | .error _ => emptyMargeAdmin) ∧
    (∀ (env : Env) (db df : Option Int),
      get_dashboard_data env db df =
        get_dashboard_data_with
          (.ok (get_chiffre_affaires env db df))
          (.ok (get_projets_data env db df))
          (.ok (get_marge_administrative env db df))) := by
  refine ⟨?_, ?_, ?_, fun env db df => rfl⟩ <;>
    cases fCA <;> cases fProjets <;> cases fMarge <;> rfl

/-- C2: the margin returned by `get_marge_salariale_projet` always equals its
revenue minus its cost exactly, and its margin rate is 0 when revenue ≤ 0 and
`round(margin / revenue * 100, 2)` when revenue > 0 — for every snapshot,
project id and range (including the zero-revenue, positive-cost case). -/
theorem marge_salariale_formula (env : Env) (projet_id : Option Nat)
    (db df : Option Int) :
    (get_marge_salariale_projet env projet_id db df).marge =
      (get_marge_salariale_projet env projet_id db df).revenus -
        (get_marge_salariale_projet env projet_id db df).cout_salarial ∧
    ((get_marge_salariale_projet env projet_id db df).revenus ≤ 0 →
      (get_marge_salariale_projet env projet_id db df).taux_marge = 0) ∧
    (0 < (get_marge_salariale_projet env projet_id db df).revenus →
      (get_marge_salariale_projet env projet_id db df).taux_marge =
        round2 ((get_marge_salariale_projet env projet_id db df).marge /
          (get_marge_salariale_projet env projet_id db df).revenus * 100)) := by
  have hmain : ∀ r c : ℚ,
      (computeMarge r c).marge =
        (computeMarge r c).revenus - (computeMarge r c).cout_salarial ∧
      ((computeMarge r c).revenus ≤ 0 → (computeMarge r c).taux_marge = 0) ∧
      (0 < (computeMarge r c).revenus →
        (computeMarge r c).taux_marge =
          round2 ((computeMarge r c).marge /
            (computeMarge r c).revenus * 100)) := by
    intro r c
    refine ⟨rfl, ?_, ?_⟩
    · intro h
      have hr : r ≤ 0 := h
      show round2 (if 0 < r then (r - c) / r * 100 else 0) = 0
      rw [if_neg (not_lt.mpr hr), round2_zero]
    · intro h
      have hr : 0 < r := h
      show round2 (if 0 < r then (r - c) / r * 100 else 0) =
        round2 ((r - c) / r * 100)
      rw [if_pos hr]
  have hempty :
      get_empty_marge.marge =
        get_empty_marge.revenus - get_empty_marge.cout_salarial ∧
      (get_empty_marge.revenus ≤ 0 → get_empty_marge.taux_marge = 0) ∧
      (0 < get_empty_marge.revenus →
        get_empty_marge.taux_marge =
          round2 (get_empty_marge.marge / get_empty_marge.revenus * 100)) := by
    refine ⟨by norm_num [get_empty_marge], fun _ => rfl, fun h => ?_⟩
    exact absurd h (by norm_num [get_empty_marge])
  rcases projet_id with _ | pid
  · simpa [get_marge_salariale_projet] using hempty
  · by_cases h0 : pid = 0
    · simpa [get_marge_salariale_projet, h0] using hempty
    · rcases hf : (env.projects.getD []).find? (fun p => p.id == pid) with
        _ | projet
      · simpa [get_marge_salariale_projet, h0, hf] using hempty
      · simpa [get_marge_salariale_projet, h0, hf] using
          hmain (get_ca_projet_optimized env projet db df)
            (get_cout_salarial_projet env projet db df)

/-- C2 witness: on a snapshot where project 1 has no invoice lines and one
timesheet entry of amount −500, the computed margin is −500 with margin rate
0 and no error. -/
theorem marge_salariale_formula_witness :
    (get_marge_salariale_projet
      ⟨none, none, some [⟨some 1, none, some (-500), none, 0⟩],
        some [⟨1, none, none, true, none, none, none⟩], none,
        false, false, false, false, false, false⟩
      (some 1) none none).taux_marge = 0 ∧
    (get_marge_salariale_projet
      ⟨none, none, some [⟨some 1, none, some (-500), none, 0⟩],
        some [⟨1, none, none, true, none, none, none⟩], none,
        false, false, false, false, false, false⟩
      (some 1) none none).marge = -500 := by
  have hneg : negCost ⟨some 1, none, some (-500), none, 0⟩ = 500 := by
    norm_num [negCost]
  constructor
  · exact (marge_salariale_formula
      ⟨none, none, some [⟨some 1, none, some (-500), none, 0⟩],
        some [⟨1, none, none, true, none, none, none⟩], none,
        false, false, false, false, false, false⟩
      (some 1) none none).2.1 (le_refl 0)
  · show (0 : ℚ) - (0 + negCost ⟨some 1, none, some (-500), none, 0⟩) = -500
    rw [hneg]
    norm_num

/-- C3: `get_marge_salariale_projet` on a falsy project id (absent or 0) or
on an id that does not resolve to an existing project returns the zero margin
breakdown without raising; on an existing project it delegates to the
per-project revenue and staffing-cost computations and the margin formula. -/
theorem marge_salariale_fail_soft (env : Env) (db df : Option Int) (pid : Nat)
    (projet : Projet) :
    get_marge_salariale_projet env none db df = get_empty_marge ∧
    get_marge_salariale_projet env (some 0) db df = get_empty_marge ∧
    (pid ≠ 0 →
      (env.projects.getD []).find? (fun p => p.id == pid) = none →
      get_marge_salariale_projet env (some pid) db df = get_empty_marge) ∧
    (pid ≠ 0 →
      (env.projects.getD []).find? (fun p => p.id == pid) = some projet →
      get_marge_salariale_projet env (some pid) db df =
        computeMarge (get_ca_projet_optimized env projet db df)
          (get_cout_salarial_projet env projet db df)) := by
  refine ⟨rfl, rfl, ?_, ?_⟩
  · intro h0 hf
    simp [get_marge_salariale_projet, h0, hf]
  · intro h0 hf
    simp [get_marge_salariale_projet, h0, hf]

/-- C3 witness: on a snapshot holding only project 1, project id 2 yields the
zero breakdown and project id 1 delegates to the revenue/cost computations. -/
theorem marge_salariale_fail_soft_witness :
    get_marge_salariale_projet
      ⟨none, none, none, some [⟨1, none, none, true, none, none, none⟩], none,
        false, false, false, false, false, false⟩
      (some 2) none none = get_empty_marge ∧
    get_marge_salariale_projet
      ⟨none, none, none, some [⟨1, none, none, true, none, none, none⟩], none,
        false, false, false, false, false, false⟩
      (some 1) none none =
      computeMarge
        (get_ca_projet_optimized
          ⟨none, none, none, some [⟨1, none, none, true, none, none, none⟩],
            none, false, false, false, false, false, false⟩
          ⟨1, none, none, true, none, none, none⟩ none none)
        (get_cout_salarial_projet
          ⟨none, none, none, some [⟨1, none, none, true, none, none, none⟩],
            none, false, false, false, false, false, false⟩
          ⟨1, none, none, true, none, none, none⟩ none none) := by
  constructor
  · exact (marge_salariale_fail_soft
      ⟨none, none, none, some [⟨1, none, none, true, none, none, none⟩], none,
        false, false, false, false, false, false⟩
      none none 2 ⟨1, none, none, true, none, none, none⟩).2.2.1
      (by decide) (by decide)
  · exact (marge_salariale_fail_soft
      ⟨none, none, none, some [⟨1, none, none, true, none, none, none⟩], none,
        false, false, false, false, false, false⟩
      none none 1 ⟨1, none, none, true, none, none, none⟩).2.2.2
      (by decide) (by decide)

/-- C8: in the budget comparison (modelled from the spec, the method being
absent from the source tree), the utilization percentage equals realized
revenue over planned budget times 100 when the planned budget is positive and
0 when it is zero or negative, and the remaining budget is the planned budget
minus realized revenue floored at zero. -/
theorem budget_figures_spec (planned realized : ℚ) :
    (0 < planned →
      (budgetProjetFigures planned realized).1 = realized / planned * 100) ∧
    (planned ≤ 0 → (budgetProjetFigures planned realized).1 = 0) ∧
    (budgetProjetFigures planned realized).2 = max 0 (planned - realized) ∧
    (planned ≤ realized → (budgetProjetFigures planned realized).2 = 0) := by
  refine ⟨?_, ?_, rfl, ?_⟩
  · intro h
    simp [budgetProjetFigures, h]
  · intro h
    simp [budgetProjetFigures, not_lt.mpr h]
  · intro h
    show max 0 (planned - realized) = 0
    rw [max_eq_left (sub_nonpos.mpr h)]

/-- C8 witness: planned budget 1000 with realized revenue 1200 yields
utilization 120 and remaining 0. -/
theorem budget_figures_spec_witness :
    (budgetProjetFigures 1000 1200).1 = 120 ∧
    (budgetProjetFigures 1000 1200).2 = 0 := by
  have h := budget_figures_spec (1000 : ℚ) 1200
  refine ⟨?_, h.2.2.2 (by norm_num)⟩
  rw [h.1 (by norm_num)]
  norm_num

/-- The search-then-sum of `get_chiffre_affaires` collapses to one sum over
the qualifying, strictly positive invoices. -/
theorem ca_portfolio_eq (env : Env) (db df : Option Int) :
    get_chiffre_affaires env db df =
      (((env.account_move.getD []).filter (fun f =>
        invQual db df f && decide (0 < f.amount_total_signed))).map
        (fun f => f.amount_total_signed)).sum := by
  cases hm : env.account_move with
  | none => simp [get_chiffre_affaires, hm]
  | some moves =>
    simp only [get_chiffre_affaires, hm, Option.getD_some]
    rw [List.filter_filter]
    have hpred : ∀ f ∈ moves,
        ((!(decide (f.amount_total_signed = 0)) &&
          decide (0 < f.amount_total_signed)) && invQual db df f) =
        (invQual db df f && decide (0 < f.amount_total_signed)) := by
      intro f _
      rw [truthy_pos]
      exact Bool.and_comm _ _
    rw [List.filter_congr hpred]
    refine max_eq_right (List.sum_nonneg ?_)
    intro x hx
    obtain ⟨f, hf, rfl⟩ := List.mem_map.mp hx
    have hq := (List.mem_filter.mp hf).2
    have hp : 0 < f.amount_total_signed :=
      of_decide_eq_true ((Bool.and_eq_true _ _).mp hq).2
    exact le_of_lt hp

/-- C4: portfolio revenue equals the sum of the signed total amounts of the
posted, customer-invoice records whose invoice date lies within the range,
restricted to strictly positive amounts (negative/credit amounts contribute
nothing), and it is 0 — not an error — when no qualifying invoice exists. -/
theorem ca_portfolio_spec (env : Env) (db df : Option Int) :
    get_chiffre_affaires env db df =
      (((env.account_move.getD []).filter (fun f =>
        invQual db df f && decide (0 < f.amount_total_signed))).map
        (fun f => f.amount_total_signed)).sum ∧
    ((env.account_move.getD []).filter (fun f =>
        invQual db df f && decide (0 < f.amount_total_signed)) = [] →
      get_chiffre_affaires env db df = 0) := by
  refine ⟨ca_portfolio_eq env db df, fun h => ?_⟩
  rw [ca_portfolio_eq env db df, h]
  rfl

/-- C4 witness: an empty invoice store yields revenue 0. -/
theorem ca_portfolio_spec_witness :
    get_chiffre_affaires
      ⟨some [], none, none, none, none,
        false, false, false, false, false, false⟩ none none = 0 :=
  (ca_portfolio_spec
    ⟨some [], none, none, none, none,
      false, false, false, false, false, false⟩ none none).2 rfl

/-- C5: evaluation of `_get_ca_projet_optimized` at the failing input. The
line's analytic distribution holds only account `'12'`, not the project's
account 1, yet the line's subtotal 100 is counted as the project's revenue:
the membership test is the Python substring check
`'1' in "{'12': 100.0}"`, which is true. The claim — that a line attributed
to a different analytic account contributes nothing — fails on this code. -/
theorem ca_projet_substring_bug :
    projC5.analytic_account_id = some 1 ∧
    ligneC5.analytic_distribution = some [("12", 100)] ∧
    ((ligneC5.analytic_distribution.getD []).all
      (fun kv => kv.1 != "1")) = true ∧
    get_ca_projet_optimized envC5 projC5 none none = 100 := by
  refine ⟨rfl, rfl, by decide, ?_⟩
  show (0 : ℚ) + ligneC5.price_subtotal = 100
  show (0 : ℚ) + 100 = 100
  norm_num

/-- The per-entry cost sum of `_get_cout_salarial_projet` restricted to the
strictly negative amounts. -/
theorem negcost_sum (l : List AnalyticLine) :
    (l.map negCost).sum =
      ((l.filter (fun t => decide (t.amount.getD 0 < 0))).map
        (fun t => |t.amount.getD 0|)).sum := by
  induction l with
  | nil => rfl
  | cons t ts ih =>
    rcases ht : t.amount with _ | a
    · have h1 : negCost t = 0 := by simp [negCost, ht]
      have h2 : decide (t.amount.getD 0 < 0) = false := by
        rw [ht]
        simp
      simp [List.filter_cons, h2, h1, ih]
    · by_cases ha : a < 0
      · have h1 : negCost t = |a| := by simp [negCost, ht, ha]
        have h2 : decide (t.amount.getD 0 < 0) = true := by
          rw [ht]
          simp [ha]
        simp [List.filter_cons, h2, h1, ih, ht, ha]
      · have h1 : negCost t = 0 := by simp [negCost, ht, ha]
        have h2 : decide (t.amount.getD 0 < 0) = false := by
          rw [ht]
          simp [ha]
        simp [List.filter_cons, h2, h1, ih]

/-- C6: the staffing cost of a project equals the sum of the absolute values
of the strictly negative amounts of its timesheet entries dated within the
range — entries with positive, zero or absent amount contribute nothing —
and it is 0 when no qualifying entry exists. -/
theorem cout_salarial_spec (env : Env) (projet : Projet) (db df : Option Int) :
    get_cout_salarial_projet env projet db df =
      ((((env.analytic_lines.getD []).filter (tsQual projet db df)).filter
        (fun t => decide (t.amount.getD 0 < 0))).map
        (fun t => |t.amount.getD 0|)).sum ∧
    ((env.analytic_lines.getD []).filter (tsQual projet db df) = [] →
      get_cout_salarial_projet env projet db df = 0) := by
  have hmain : get_cout_salarial_projet env projet db df =
      ((((env.analytic_lines.getD []).filter (tsQual projet db df)).filter
        (fun t => decide (t.amount.getD 0 < 0))).map
        (fun t => |t.amount.getD 0|)).sum := by
    cases hl : env.analytic_lines with
    | none => simp [get_cout_salarial_projet, hl]
    | some tss =>
      simp only [get_cout_salarial_projet, hl, Option.getD_some]
      rw [foldl_add_eq_sum negCost, zero_add, negcost_sum]
  refine ⟨hmain, fun h => ?_⟩
  rw [hmain, h]
  rfl

/-- C6 witness: a positive-amount entry of another project yields cost 0. -/
theorem cout_salarial_spec_witness :
    get_cout_salarial_projet
      ⟨none, none, some [⟨some 2, none, some 50, none, 0⟩], none, none,
        false, false, false, false, false, false⟩
      ⟨1, none, none, true, none, none, none⟩ none none = 0 :=
  (cout_salarial_spec
    ⟨none, none, some [⟨some 2, none, some 50, none, 0⟩], none, none,
      false, false, false, false, false, false⟩
    ⟨1, none, none, true, none, none, none⟩ none none).2 rfl

/-- C7: the headcount of a project is the number of distinct employee
identifiers on its cost entries over all time — no date-range restriction
appears, while the hours of the same project are summed over the range only —
and it is 0 when the timesheet record family is absent or the project has no
attributed entries. -/
theorem headcount_all_time_spec (env : Env) (projet : Projet)
    (db df : Option Int) :
    get_nb_personnes_projet env projet =
      (((env.analytic_lines.getD []).filter (fun t =>
        t.project_id == some projet.id && t.employee_id.isSome)).filterMap
        (fun t => t.employee_id)).toFinset.card ∧
    get_heures_projet env projet db df =
      (((env.analytic_lines.getD []).filter (tsQual projet db df)).map
        (fun t => t.unit_amount)).sum ∧
    (env.analytic_lines = none → get_nb_personnes_projet env projet = 0) ∧
    ((env.analytic_lines.getD []).filter (fun t =>
        t.project_id == some projet.id && t.employee_id.isSome) = [] →
      get_nb_personnes_projet env projet = 0) := by
  have h1 : get_nb_personnes_projet env projet =
      (((env.analytic_lines.getD []).filter (fun t =>
        t.project_id == some projet.id && t.employee_id.isSome)).filterMap
        (fun t => t.employee_id)).toFinset.card := by
    cases hl : env.analytic_lines with
    | none => simp [get_nb_personnes_projet, hl]
    | some tss =>
      simp only [get_nb_personnes_projet, hl, Option.getD_some]
      rw [List.card_toFinset]
  refine ⟨h1, ?_, ?_, ?_⟩
  · cases hl : env.analytic_lines with
    | none => simp [get_heures_projet, hl]
    | some tss =>
      simp only [get_heures_projet, hl, Option.getD_some]
      exact sum_map_filter_of_zero _ _
        (fun t htf => of_decide_eq_true (by simpa using htf)) _
  · intro h
    simp [get_nb_personnes_projet, h]
  · intro h
    rw [h1, h]
    rfl

/-- C7 witness: with the timesheet record family absent, headcount is 0. -/
theorem headcount_all_time_spec_witness :
    get_nb_personnes_projet
      ⟨none, none, none, none, none,
        false, false, false, false, false, false⟩
      ⟨1, none, none, true, none, none, none⟩ = 0 :=
  (headcount_all_time_spec
    ⟨none, none, none, none, none,
      false, false, false, false, false, false⟩
    ⟨1, none, none, true, none, none, none⟩ none none).2.2.1 rfl

/-- The project search of `get_projets_data` never returns more than 500
projects. -/
theorem searchProjets_len (env : Env) (db df : Option Int) :
    (searchProjets env db df).length ≤ 500 := by
  unfold searchProjets
  cases env.projects with
  | none => simp
  | some ps =>
    simp only [List.length_take]
    exact min_le_left _ _

/-- C10: every element of the project list is a record of exactly the shape
`{id, name, ca, nb_personnes, heures, stage, marge_data}`; a project whose
metrics computation raises still appears, with the default entry (`ca` 0,
`nb_personnes` 0, `heures` 0, stage `'Erreur'`, `marge_data` none), each
entry depending only on its own project; and the list never exceeds 500
projects. -/
theorem projets_data_shape (env : Env) (db df : Option Int)
    (compute : Projet → Except String (ℚ × Nat × ℚ × String)) :
    (get_projets_data_with env db df compute).length ≤ 500 ∧
    get_projets_data_with env db df compute =
      (searchProjets env db df).map (fun p =>
        match compute p with
        | .ok (ca, nb, h, st) =>
          ⟨p.id, projetName p, ca, nb, h, st, none⟩
        | .error _ => ⟨p.id, projetName p, 0, 0, 0, "Erreur", none⟩) ∧
    get_projets_data env db df =
      get_projets_data_with env db df (defaultCompute env db df) := by
  refine ⟨?_, rfl, rfl⟩
  rw [get_projets_data_with, List.length_map]
  exact searchProjets_len env db df

/-- C9: date parsing at the boundary is total and fails soft: falsy input
(absent or the empty string) resolves to `None`, a string on which the
underlying `strptime` parse raises resolves to `None` rather than
propagating, a well-formed string parses (model) or is returned unchanged
(controller), and a date object passes through — for both the model's
`_parse_date` and the controller's `_validate_date`. -/
theorem date_validation_fail_soft (s : String) :
    parse_date .noneV = none ∧
    parse_date (.strV "") = none ∧
    (strptimeDate s = .error () → parse_date (.strV s) = none) ∧
    (∀ d : PyDate, strptimeDate s = .ok d → parse_date (.strV s) = some d) ∧
    (∀ d : PyDate, parse_date (.dateV d) = some d) ∧
    validate_date none = none ∧
    validate_date (some "") = none ∧
    (strptimeDate s = .error () → validate_date (some s) = none) := by
  refine ⟨rfl, rfl, ?_, ?_, fun d => rfl, rfl, rfl, ?_⟩
  · intro herr
    by_cases hse : s = ""
    · subst hse
      rfl
    · simp [parse_date, hse, herr]
  · intro d hok
    by_cases hse : s = ""
    · rw [hse] at hok
      rw [show strptimeDate "" = .error () from rfl] at hok
      exact Except.noConfusion hok
    · simp [parse_date, hse, hok]
  · intro herr
    by_cases hse : s = ""
    · subst hse
      rfl
    · simp [validate_date, hse, herr]

/-- C9 witness: the malformed date string `2024-13-05` (month 13) resolves
to `None` in both the model and the controller, with no exception. -/
theorem date_validation_fail_soft_witness :
    parse_date (.strV "2024-13-05") = none ∧
    validate_date (some "2024-13-05") = none := by
  have herr : strptimeDate "2024-13-05" = .error () := rfl
  exact ⟨(date_validation_fail_soft "2024-13-05").2.2.1 herr,
    (date_validation_fail_soft "2024-13-05").2.2.2.2.2.2.2 herr⟩

end DashboardProjet
